import Mathlib

/-!
Verification of the MySQL MCP server adapter (src/src/mysql_mcp_server/server.py)
as a shallow embedding in Lean.  Python values are modelled through their
textual rendering, Python exceptions through an explicit error type, and the
database driver through an oracle (`Session`) whose fields give the outcome of
each driver call.  Each adapter operation is translated into a pure function
that threads the session-lifecycle state (opened / cursor closed / connection
closed / committed) explicitly.
-/

namespace MysqlMcp

/-!
### Python string primitives

The adapter relies on `str.strip`, `str.upper`, `str.startswith`, `str.split`
and `int(...)`.  They are modelled structurally over the character list of a
`String` so that every definition evaluates on concrete inputs.
-/

/-- Python `str.strip()`: remove leading and trailing whitespace. -/
def pyStrip (s : String) : String :=
  ((s.data.dropWhile Char.isWhitespace).reverse.dropWhile Char.isWhitespace).reverse.asString

/-- Python `str.upper()` on ASCII text. -/
def pyUpper (s : String) : String :=
  (s.data.map Char.toUpper).asString

/-- Python `str.startswith(pre)`. -/
def pyStartsWith (s pre : String) : Bool :=
  pre.data.isPrefixOf s.data

/-- Helper for `pySplit`: split a character list at a one-character
separator. -/
def pySplitAux (sep : Char) : List Char → List Char → List String
  | [], acc => [acc.reverse.asString]
  | c :: cs, acc =>
      if c = sep then acc.reverse.asString :: pySplitAux sep cs []
      else pySplitAux sep cs (c :: acc)

/-- Python `str.split(sep)` for a one-character separator: always returns at
least one piece. -/
def pySplit (s : String) (sep : Char) : List String :=
  pySplitAux sep s.data []

/-- Digit-list accumulator for `pyInt?`. -/
def pyDigitsAux : List Char → Nat → Option Nat
  | [], acc => some acc
  | c :: cs, acc =>
      if c.isDigit then pyDigitsAux cs (10 * acc + (c.toNat - 48)) else none

/-- A non-empty all-digit character list as a number. -/
def pyDigits : List Char → Option Nat
  | [] => none
  | cs => pyDigitsAux cs 0

/-- Python `int(s)`: optional sign and decimal digits after stripping
whitespace; `none` models the `ValueError` Python raises otherwise. -/
def pyInt? (s : String) : Option Int :=
  match (pyStrip s).data with
  | [] => none
  | '+' :: cs => (pyDigits cs).map Int.ofNat
  | '-' :: cs => (pyDigits cs).map (fun n => -(n : Int))
  | cs => (pyDigits cs).map Int.ofNat

/-- Helper for `containsSub`: does `pat` start at any position of `l`? -/
def containsSubAux (pat : List Char) : List Char → Bool
  | [] => pat.isPrefixOf []
  | c :: cs => pat.isPrefixOf (c :: cs) || containsSubAux pat cs

/-- Python `pat in s` (substring containment). -/
def containsSub (s pat : String) : Bool :=
  containsSubAux pat.data s.data

/-- A database cell value, modelled by the constructors the driver can return;
`pyStr` is the rendering Python's `str()` applies to it. -/
inductive Value where
  | vNull : Value
  | vInt (n : Int) : Value
  | vStr (s : String) : Value
deriving DecidableEq

/-- Python `str()` on a cell value. -/
def pyStr : Value → String
  | .vNull => "None"
  | .vInt n => toString n
  | .vStr s => s

/-- The Python exception kinds the adapter distinguishes:
`dbError` is `mysql.connector.Error` (the only class `list_resources` catches),
`valueError` is `ValueError`, `runtimeError` is `RuntimeError`,
`indexError`/`typeError` arise while formatting malformed driver rows. -/
inductive PyExc where
  | dbError (m : String) : PyExc
  | valueError (m : String) : PyExc
  | runtimeError (m : String) : PyExc
  | indexError (m : String) : PyExc
  | typeError (m : String) : PyExc
deriving DecidableEq

/-- `str(e)`: the message carried by an exception. -/
def PyExc.msg : PyExc → String
  | .dbError m => m
  | .valueError m => m
  | .runtimeError m => m
  | .indexError m => m
  | .typeError m => m

/-- Whether an exception is a `mysql.connector.Error` (caught by the
`except Error` clause of `list_resources`). -/
def isDbError : PyExc → Bool
  | .dbError _ => true
  | _ => false

/-- The process environment as the adapter reads it: one optional string per
`MYSQL_*` variable, plus `os.path.exists` as an oracle. -/
structure Env where
  mysql_host : Option String
  mysql_port : Option String
  mysql_user : Option String
  mysql_password : Option String
  mysql_database : Option String
  mysql_ssl_ca : Option String
  fileExists : String → Bool

/-- Python truthiness of `os.getenv(...)`: `None` and `""` are falsy. -/
def truthy : Option String → Bool
  | none => false
  | some s => !s.isEmpty

/-- The configuration dict produced by `get_db_config`.  The optional
`ssl_ca` field models presence of the `"ssl_ca"` key (the source pops the key
when the variable is unset); the two verify flags model the `"ssl_verify_cert"`
and `"ssl_verify_identity"` keys (absent ↦ `false`, set-to-`True` ↦ `true`). -/
structure DBConfig where
  host : String
  port : Int
  user : String
  password : String
  database : String
  ssl_ca : Option String
  ssl_verify_cert : Bool
  ssl_verify_identity : Bool
deriving DecidableEq

/-- `get_db_config` (server.py lines 28–57).  Errors are `ValueError`s carried
as their message.  `int(os.getenv("MYSQL_PORT", "3306"))` is evaluated while
the dict literal is built, so an unparsable port fails before the
required-field check, exactly as in the source. -/
def get_db_config (env : Env) : Except String DBConfig :=
  match pyInt? (env.mysql_port.getD "3306") with
  | none =>
      .error ("invalid literal for int() with base 10: " ++ env.mysql_port.getD "3306")
  | some port =>
      if !(truthy env.mysql_user && truthy env.mysql_password && truthy env.mysql_database) then
        .error "Missing required database configuration"
      else
        let base : DBConfig :=
          { host := env.mysql_host.getD "localhost"
            port := port
            user := env.mysql_user.getD ""
            password := env.mysql_password.getD ""
            database := env.mysql_database.getD ""
            ssl_ca := none
            ssl_verify_cert := false
            ssl_verify_identity := false }
        if truthy env.mysql_ssl_ca then
          let ca := env.mysql_ssl_ca.getD ""
          if env.fileExists ca then
            .ok { base with
                    ssl_ca := some ca
                    ssl_verify_cert := true
                    ssl_verify_identity := true }
          else
            .error ("SSL CA certificate file not found: " ++ ca)
        else
          .ok base

/-- A value inside the `connect_args` dict handed to the driver. -/
inductive ConnectVal where
  | str (s : String) : ConnectVal
  | bool (b : Bool) : ConnectVal
deriving DecidableEq

/-- The SQLAlchemy engine as configured by `create_engine`: the URL string and
the `connect_args` key/value pairs passed through to the driver. -/
structure Engine where
  url : String
  connect_args : List (String × ConnectVal)
deriving DecidableEq

/-- `create_engine` (server.py lines 18–26): builds the URL and passes
`{"ssl_ca": ..., "ssl_verify_cert": True}` when the `"ssl_ca"` key is present
in the config, `{}` otherwise. -/
def create_engine (config : DBConfig) : Engine :=
  { url := "mysql+mysqlconnector://" ++ config.user ++ ":" ++ config.password ++ "@" ++
           config.host ++ ":" ++ toString config.port ++ "/" ++ config.database
    connect_args :=
      match config.ssl_ca with
      | some ca => [("ssl_ca", ConnectVal.str ca), ("ssl_verify_cert", ConnectVal.bool true)]
      | none => [] }

/-- Whether the driver receives a connect argument with the given key. -/
def hasArg (e : Engine) (k : String) : Bool :=
  e.connect_args.any (fun p => p.1 == k)

/-- Oracle for one request's driver behaviour: the outcome of
`engine.raw_connection()`, of `cursor.execute q`, and of the cursor state a
successful `execute q` leaves behind (`description`, `fetchall`, `rowcount`),
each keyed by the executed query text. -/
structure Session where
  rawConnection : Except PyExc Unit
  execute : String → Except PyExc Unit
  description : String → List String
  fetchall : String → Except PyExc (List (List Value))
  rowcount : String → Int

/-- An MCP `Resource` as constructed by `list_resources`. -/
structure Resource where
  uri : String
  name : String
  mimeType : String
  description : String
deriving DecidableEq

/-- An MCP `TextContent` item. -/
structure TextContent where
  type : String
  text : String
deriving DecidableEq

/-- The `arguments` dict of `call_tool`: `arguments.get("query")`. -/
structure ToolArgs where
  query : Option String
deriving DecidableEq

/-- Result of one adapter operation, together with the session-lifecycle
facts of the run: whether a connection was opened, and whether the cursor and
the connection were closed before the operation returned or raised. -/
structure Outcome (α : Type) where
  result : Except PyExc α
  opened : Bool
  cursorClosed : Bool
  connClosed : Bool

/-- Result of `call_tool`, additionally recording whether `conn.commit()`
ran. -/
structure CallOutcome where
  result : Except PyExc (List TextContent)
  committed : Bool
  opened : Bool
  cursorClosed : Bool
  connClosed : Bool

/-- `TextContent(type="text", text=t)`. -/
def mkText (t : String) : TextContent :=
  { type := "text", text := t }

/-- Python `row[0]`: raises `IndexError` on an empty tuple. -/
def firstElem : List Value → Except PyExc Value
  | [] => .error (.indexError "tuple index out of range")
  | v :: _ => .ok v

/-- The resource built from one `SHOW TABLES` row: every interpolation site in
the source is an f-string, so `str()` is applied to `table[0]`. -/
def tableResources (tables : List (List Value)) : Except PyExc (List Resource) :=
  tables.mapM (fun t => do
    let v ← firstElem t
    pure { uri := "mysql://" ++ pyStr v ++ "/data"
           name := "Table: " ++ pyStr v
           mimeType := "text/plain"
           description := "Data in table: " ++ pyStr v })

/-- Row-set serialization as written in `read_resource` (server.py 110–111):
`result = [",".join(map(str, row)) for row in rows]` then
`"\n".join([",".join(columns)] + result)`. -/
def serializeRowsRead (columns : List String) (rows : List (List Value)) : String :=
  let result := rows.map (fun row => String.intercalate "," (row.map pyStr))
  String.intercalate "\n" (String.intercalate "," columns :: result)

/-- Row-set serialization as written, independently, in the SELECT branch of
`call_tool` (server.py 174–175). -/
def serializeRowsTool (columns : List String) (rows : List (List Value)) : String :=
  let result := rows.map (fun row => String.intercalate "," (row.map pyStr))
  String.intercalate "\n" (String.intercalate "," columns :: result)

/-- `"\n".join` demands `str` items: a non-string `table[0]` in the
SHOW TABLES branch of `call_tool` raises `TypeError` at the join. -/
def asJoinStr : Value → Except PyExc String
  | .vStr s => .ok s
  | _ => .error (.typeError "sequence item: expected str instance")

/-- The table names the SHOW TABLES branch of `call_tool` extracts:
`[table[0] for table in tables]`, each then joined as a string. -/
def showTableNames (tables : List (List Value)) : Except PyExc (List String) :=
  tables.mapM (fun t => do
    let v ← firstElem t
    asJoinStr v)

/-- `query.strip().upper().startswith("SHOW TABLES")`. -/
def isShowTables (q : String) : Bool :=
  pyStartsWith (pyUpper (pyStrip q)) "SHOW TABLES"

/-- `query.strip().upper().startswith("SELECT")`. -/
def isSelect (q : String) : Bool :=
  pyStartsWith (pyUpper (pyStrip q)) "SELECT"

/-- `list_resources` (server.py 62–86).  `get_db_config()` runs before the
`try`, so its `ValueError` propagates.  The body runs inside
`with engine.raw_connection().cursor() as cursor`, whose exit closes the
cursor — the anonymous raw connection is never closed.  Only
`mysql.connector.Error` is caught (fail-soft to `[]`); any other exception
propagates. -/
def list_resources (env : Env) (s : Session) : Outcome (List Resource) :=
  match get_db_config env with
  | .error m =>
      { result := .error (.valueError m), opened := false,
        cursorClosed := false, connClosed := false }
  | .ok config =>
      let _engine := create_engine config
      match s.rawConnection with
      | .error e =>
          if isDbError e then
            { result := .ok [], opened := false, cursorClosed := false, connClosed := false }
          else
            { result := .error e, opened := false, cursorClosed := false, connClosed := false }
      | .ok _ =>
          match s.execute "SHOW TABLES" with
          | .error e =>
              if isDbError e then
                { result := .ok [], opened := true, cursorClosed := true, connClosed := false }
              else
                { result := .error e, opened := true, cursorClosed := true, connClosed := false }
          | .ok _ =>
              match s.fetchall "SHOW TABLES" with
              | .error e =>
                  if isDbError e then
                    { result := .ok [], opened := true, cursorClosed := true, connClosed := false }
                  else
                    { result := .error e, opened := true, cursorClosed := true, connClosed := false }
              | .ok tables =>
                  match tableResources tables with
                  | .error e =>
                      if isDbError e then
                        { result := .ok [], opened := true, cursorClosed := true, connClosed := false }
                      else
                        { result := .error e, opened := true, cursorClosed := true, connClosed := false }
                  | .ok resources =>
                      { result := .ok resources, opened := true,
                        cursorClosed := true, connClosed := false }

/-- The query `read_resource` interpolates for a URI with a valid scheme:
`parts = uri_str[8:].split('/'); table = parts[0]`, then
`SELECT * FROM {table} LIMIT 100`. -/
def readQuery (uri : String) : String :=
  "SELECT * FROM " ++ (pySplit (uri.drop 8) '/').headD "" ++ " LIMIT 100"

/-- `read_resource` (server.py 88–119).  `get_db_config()` precedes the scheme
check; a bad scheme raises `ValueError` before any driver call; any exception
inside the `try` is re-raised as
`RuntimeError("Database error: " ++ str(e))`; nested `finally` blocks close
cursor and connection on every path after the connection opened. -/
def read_resource (env : Env) (s : Session) (uri : String) : Outcome String :=
  match get_db_config env with
  | .error m =>
      { result := .error (.valueError m), opened := false,
        cursorClosed := false, connClosed := false }
  | .ok config =>
      if !pyStartsWith uri "mysql://" then
        { result := .error (.valueError ("Invalid URI scheme: " ++ uri)), opened := false,
          cursorClosed := false, connClosed := false }
      else
        let _engine := create_engine config
        let q := readQuery uri
        match s.rawConnection with
        | .error e =>
            { result := .error (.runtimeError ("Database error: " ++ e.msg)), opened := false,
              cursorClosed := false, connClosed := false }
        | .ok _ =>
            match s.execute q with
            | .error e =>
                { result := .error (.runtimeError ("Database error: " ++ e.msg)), opened := true,
                  cursorClosed := true, connClosed := true }
            | .ok _ =>
                match s.fetchall q with
                | .error e =>
                    { result := .error (.runtimeError ("Database error: " ++ e.msg)),
                      opened := true, cursorClosed := true, connClosed := true }
                | .ok rows =>
                    { result := .ok (serializeRowsRead (s.description q) rows), opened := true,
                      cursorClosed := true, connClosed := true }

/-- The single text item `call_tool` returns when the `try` body raises `e`:
`TextContent(type="text", text=f"Error executing query: {e}")`. -/
def errText (e : PyExc) : TextContent :=
  mkText ("Error executing query: " ++ e.msg)

/-- `call_tool` (server.py 142–188).  `get_db_config()` precedes the tool-name
and query validation, whose `ValueError`s propagate; everything inside the
`try` that raises is converted to a successful `errText` payload; the branch
on the trimmed upper-cased prefix picks the result shape, and only the
fall-through branch commits. -/
def call_tool (env : Env) (s : Session) (name : String) (args : ToolArgs) : CallOutcome :=
  match get_db_config env with
  | .error m =>
      { result := .error (.valueError m), committed := false, opened := false,
        cursorClosed := false, connClosed := false }
  | .ok config =>
      if name ≠ "execute_sql" then
        { result := .error (.valueError ("Unknown tool: " ++ name)), committed := false,
          opened := false, cursorClosed := false, connClosed := false }
      else
        match args.query with
        | none =>
            { result := .error (.valueError "Query is required"), committed := false,
              opened := false, cursorClosed := false, connClosed := false }
        | some query =>
            if query.isEmpty then
              { result := .error (.valueError "Query is required"), committed := false,
                opened := false, cursorClosed := false, connClosed := false }
            else
              let _engine := create_engine config
              match s.rawConnection with
              | .error e =>
                  { result := .ok [errText e], committed := false, opened := false,
                    cursorClosed := false, connClosed := false }
              | .ok _ =>
                  match s.execute query with
                  | .error e =>
                      { result := .ok [errText e], committed := false, opened := true,
                        cursorClosed := true, connClosed := true }
                  | .ok _ =>
                      if isShowTables query then
                        match s.fetchall query with
                        | .error e =>
                            { result := .ok [errText e], committed := false, opened := true,
                              cursorClosed := true, connClosed := true }
                        | .ok tables =>
                            match showTableNames tables with
                            | .error e =>
                                { result := .ok [errText e], committed := false, opened := true,
                                  cursorClosed := true, connClosed := true }
                            | .ok names =>
                                { result := .ok [mkText (String.intercalate "\n"
                                    (("Tables_in_" ++ config.database) :: names))],
                                  committed := false, opened := true,
                                  cursorClosed := true, connClosed := true }
                      else if isSelect query then
                        match s.fetchall query with
                        | .error e =>
                            { result := .ok [errText e], committed := false, opened := true,
                              cursorClosed := true, connClosed := true }
                        | .ok rows =>
                            { result := .ok [mkText
                                (serializeRowsTool (s.description query) rows)],
                              committed := false, opened := true,
                              cursorClosed := true, connClosed := true }
                      else
                        { result := .ok [mkText
                            ("Query executed successfully. Rows affected: " ++
                              toString (s.rowcount query))],
                          committed := true, opened := true,
                          cursorClosed := true, connClosed := true }

/-- The first exception the `try` body of `call_tool` raises for query `q`,
if any: at `raw_connection`, at `execute`, at `fetchall` on the two fetching
branches, or while formatting the SHOW TABLES rows.  `none` when the body
returns normally. -/
def callRaises (s : Session) (q : String) : Option PyExc :=
  match s.rawConnection with
  | .error e => some e
  | .ok _ =>
      match s.execute q with
      | .error e => some e
      | .ok _ =>
          if isShowTables q then
            match s.fetchall q with
            | .error e => some e
            | .ok tables =>
                match showTableNames tables with
                | .error e => some e
                | .ok _ => none
          else if isSelect q then
            match s.fetchall q with
            | .error e => some e
            | .ok _ => none
          else none

/-- The first exception the `try` body of `list_resources` raises, if any:
at `raw_connection`, at `execute "SHOW TABLES"`, at `fetchall`, or while
building the resources. -/
def listRaises (s : Session) : Option PyExc :=
  match s.rawConnection with
  | .error e => some e
  | .ok _ =>
      match s.execute "SHOW TABLES" with
      | .error e => some e
      | .ok _ =>
          match s.fetchall "SHOW TABLES" with
          | .error e => some e
          | .ok tables =>
              match tableResources tables with
              | .error e => some e
              | .ok _ => none

/-- The first exception the `try` body of `read_resource` raises for query
`q`, if any: at `raw_connection`, at `execute`, or at `fetchall`. -/
def readRaises (s : Session) (q : String) : Option PyExc :=
  match s.rawConnection with
  | .error e => some e
  | .ok _ =>
      match s.execute q with
      | .error e => some e
      | .ok _ =>
          match s.fetchall q with
          | .error e => some e
          | .ok _ => none

/-- A well-formed environment: required variables set, no SSL. -/
def envOk : Env :=
  { mysql_host := none
    mysql_port := none
    mysql_user := some "u"
    mysql_password := some "p"
    mysql_database := some "db"
    mysql_ssl_ca := none
    fileExists := fun _ => false }

/-- The config `envOk` resolves to. -/
def cfgOk : DBConfig :=
  { host := "localhost"
    port := 3306
    user := "u"
    password := "p"
    database := "db"
    ssl_ca := none
    ssl_verify_cert := false
    ssl_verify_identity := false }

/-- A well-formed environment with an SSL CA path whose file exists. -/
def envSsl : Env :=
  { envOk with
      mysql_ssl_ca := some "/ca.pem"
      fileExists := fun _ => true }

/-- The config `envSsl` resolves to. -/
def cfgSsl : DBConfig :=
  { cfgOk with
      ssl_ca := some "/ca.pem"
      ssl_verify_cert := true
      ssl_verify_identity := true }

/-- An environment with `MYSQL_USER` unset and an SSL CA path whose file
does not exist. -/
def envMissingUser : Env :=
  { envOk with
      mysql_user := none
      mysql_ssl_ca := some "/nope.pem" }

/-- A well-formed environment whose SSL CA file does not exist. -/
def envSslBad : Env :=
  { envOk with mysql_ssl_ca := some "/nope.pem" }

/-- A session whose driver calls all succeed: one result set with columns
`a,b` and a single row `(1, "x")`, and an affected-row count of 1. -/
def sOk : Session :=
  { rawConnection := .ok ()
    execute := fun _ => .ok ()
    description := fun _ => ["a", "b"]
    fetchall := fun _ => .ok [[Value.vInt 1, Value.vStr "x"]]
    rowcount := fun _ => 1 }

/-- A session whose `execute` raises `mysql.connector.Error`. -/
def sExecFail : Session :=
  { rawConnection := .ok ()
    execute := fun _ => .error (.dbError "Table does not exist")
    description := fun _ => []
    fetchall := fun _ => .error (.dbError "Table does not exist")
    rowcount := fun _ => -1 }

/-! ## Theorems -/

/-- C8: for every column-name list and every sequence of rows, the text
produced by the serialization written in `read_resource` and the text produced
by the serialization written in the SELECT branch of `call_tool` are
byte-identical: the header line of comma-joined column names, followed by one
comma-joined stringified-value line per row, joined by newlines. -/
theorem c8_row_serialization_identical :
    ∀ (columns : List String) (rows : List (List Value)),
      serializeRowsRead columns rows = serializeRowsTool columns rows :=
  fun _ _ => rfl

/-- C3 (code evaluated at the failing input): resolving a configuration with
an existing SSL CA file sets `ssl_verify_identity` in the config, yet the
engine's `connect_args` contain only `ssl_ca` and `ssl_verify_cert` — identity
verification is never passed to the driver; and with no SSL CA path the
`connect_args` are empty. -/
theorem c3_ssl_identity_not_forwarded :
    get_db_config envSsl = .ok cfgSsl ∧
    cfgSsl.ssl_verify_identity = true ∧
    (create_engine cfgSsl).connect_args =
      [("ssl_ca", ConnectVal.str "/ca.pem"), ("ssl_verify_cert", ConnectVal.bool true)] ∧
    hasArg (create_engine cfgSsl) "ssl_verify_identity" = false ∧
    get_db_config envOk = .ok cfgOk ∧
    (create_engine cfgOk).connect_args = [] :=
  ⟨rfl, rfl, rfl, rfl, rfl, rfl⟩

/-- C9: configuration resolution precedes input validation in both
`call_tool` and `read_resource`: when the environment is invalid, the
configuration error propagates for every tool name, argument dict and URI —
including unknown tools, missing queries and invalid schemes. -/
theorem c9_config_resolution_preempts_validation (env : Env) (s : Session)
    (name : String) (args : ToolArgs) (uri : String) (m : String)
    (hc : get_db_config env = .error m) :
    (call_tool env s name args).result = .error (.valueError m) ∧
    (read_resource env s uri).result = .error (.valueError m) := by
  constructor
  · unfold call_tool
    rw [hc]
  · unfold read_resource
    rw [hc]

/-- C9 witness: a concrete environment with `MYSQL_USER` unset makes both
operations fail with the configuration error, even for an unknown tool name
and a non-mysql URI. -/
theorem c9_config_resolution_preempts_validation_witness :
    (call_tool envMissingUser sOk "unknown_tool" { query := none }).result =
      .error (.valueError "Missing required database configuration") ∧
    (read_resource envMissingUser sOk "http://t/data").result =
      .error (.valueError "Missing required database configuration") :=
  c9_config_resolution_preempts_validation envMissingUser sOk "unknown_tool"
    { query := none } "http://t/data" "Missing required database configuration" rfl

/-- C7 counterexample: in an environment where `MYSQL_USER` is unset and
`MYSQL_SSL_CA` names a non-existent file, resolution fails with the
missing-field message, which does not name the missing path — so "for every
environment in which sslCaPath is set but the file does not exist, resolution
fails with a ConfigurationError whose message names the missing path" is false
as stated. -/
theorem c7_missing_field_preempts_ssl_message :
    envMissingUser.mysql_ssl_ca = some "/nope.pem" ∧
    envMissingUser.fileExists "/nope.pem" = false ∧
    get_db_config envMissingUser = .error "Missing required database configuration" ∧
    containsSub "Missing required database configuration" "/nope.pem" = false :=
  ⟨rfl, rfl, rfl, rfl⟩

/-- C7 amended: an environment missing user, password or database always
fails resolution with a ConfigurationError; and an environment with a
parsable port and all required fields present whose `sslCaPath` names a
non-existent file fails with the ConfigurationError naming that path.  (When
a required field is missing or the port is unparsable, that earlier
configuration error is raised instead and does not name the path.) -/
theorem c7_config_validation (env : Env) :
    ((truthy env.mysql_user && truthy env.mysql_password && truthy env.mysql_database) = false →
      ∃ m, get_db_config env = .error m) ∧
    (∀ ca, (pyInt? (env.mysql_port.getD "3306")).isSome = true →
      (truthy env.mysql_user && truthy env.mysql_password && truthy env.mysql_database) = true →
      env.mysql_ssl_ca = some ca → ca.isEmpty = false → env.fileExists ca = false →
      get_db_config env = .error ("SSL CA certificate file not found: " ++ ca)) := by
  constructor
  · intro h
    unfold get_db_config
    cases hp : pyInt? (env.mysql_port.getD "3306") with
    | none => exact ⟨_, rfl⟩
    | some p =>
        exact ⟨"Missing required database configuration", by simp [h]⟩
  · intro ca hp h hca hcae hfe
    unfold get_db_config
    obtain ⟨p, hp⟩ := Option.isSome_iff_exists.mp hp
    rw [hp, hca]
    have hca2 : truthy (some ca) = true := by simp [truthy, hcae]
    simp [h, hca2, hfe]

/-- C7 witness: a concrete environment missing `MYSQL_USER` fails resolution,
and a concrete well-formed environment whose CA file is missing fails with
the message naming the path. -/
theorem c7_config_validation_witness :
    (∃ m, get_db_config envMissingUser = .error m) ∧
    get_db_config envSslBad = .error ("SSL CA certificate file not found: " ++ "/nope.pem") :=
  ⟨(c7_config_validation envMissingUser).1 rfl,
   (c7_config_validation envSslBad).2 "/nope.pem" rfl rfl rfl rfl rfl⟩

/-- On every path of `read_resource` that opens a connection, the nested
`finally` blocks close the cursor and the connection. -/
theorem read_resource_release (env : Env) (s : Session) (uri : String) :
    (read_resource env s uri).opened = false ∨
      ((read_resource env s uri).cursorClosed = true ∧
       (read_resource env s uri).connClosed = true) := by
  unfold read_resource
  cases get_db_config env with
  | error m => simp
  | ok config =>
      by_cases hu : pyStartsWith uri "mysql://"
      · simp only [hu, Bool.not_true, Bool.false_eq_true, if_false]
        cases s.rawConnection with
        | error e => simp
        | ok u =>
            cases s.execute (readQuery uri) with
            | error e => simp
            | ok v =>
                cases s.fetchall (readQuery uri) with
                | error e => simp
                | ok rows => simp
      · simp [hu]

/-- On every path of `call_tool` that opens a connection, the nested
`finally` blocks close the cursor and the connection. -/
theorem call_tool_release (env : Env) (s : Session) (name : String) (args : ToolArgs) :
    (call_tool env s name args).opened = false ∨
      ((call_tool env s name args).cursorClosed = true ∧
       (call_tool env s name args).connClosed = true) := by
  unfold call_tool
  cases get_db_config env with
  | error m => simp
  | ok config =>
      by_cases hn : name = "execute_sql"
      · simp only [hn, ne_eq, not_true_eq_false, if_false]
        cases args.query with
        | none => simp
        | some q =>
            by_cases hq : q.isEmpty
            · simp [hq]
            · simp only [hq, Bool.false_eq_true, if_false]
              cases s.rawConnection with
              | error e => simp
              | ok u =>
                  cases s.execute q with
                  | error e => simp
                  | ok v =>
                      by_cases hs : isShowTables q
                      · simp only [hs, if_true]
                        cases s.fetchall q with
                        | error e => simp
                        | ok tables =>
                            dsimp only
                            cases showTableNames tables with
                            | error e => simp
                            | ok names => simp
                      · simp only [hs, Bool.false_eq_true, if_false]
                        by_cases hsel : isSelect q
                        · simp only [hsel, if_true]
                          cases s.fetchall q with
                          | error e => simp
                          | ok rows => simp
                        · simp [hsel]
      · simp [hn]

/-- `list_resources` closes the cursor on every path that opens a connection,
and never closes the connection. -/
theorem list_resources_release (env : Env) (s : Session) :
    (list_resources env s).connClosed = false ∧
      ((list_resources env s).opened = false ∨ (list_resources env s).cursorClosed = true) := by
  unfold list_resources
  cases get_db_config env with
  | error m => simp
  | ok config =>
      cases s.rawConnection with
      | error e =>
          by_cases hd : isDbError e <;> simp [hd]
      | ok u =>
          cases s.execute "SHOW TABLES" with
          | error e => by_cases hd : isDbError e <;> simp [hd]
          | ok v =>
              cases s.fetchall "SHOW TABLES" with
              | error e => by_cases hd : isDbError e <;> simp [hd]
              | ok tables =>
                  dsimp only
                  cases tableResources tables with
                  | error e => by_cases hd : isDbError e <;> simp [hd]
                  | ok rs => simp

/-- C4 counterexample: on a fully successful run, `list_resources` opens a
connection and returns without closing it (only the cursor's context manager
runs) — so "the session (connection and cursor) is closed on every exit path"
is false for `list_resources`. -/
theorem c4_list_resources_conn_left_open :
    (list_resources envOk sOk).opened = true ∧
    (list_resources envOk sOk).connClosed = false :=
  ⟨rfl, rfl⟩

/-- C4 amended: `read_resource` and `call_tool` close both the cursor and the
connection on every exit path after opening a session, on success and on
failure alike; `list_resources` closes the cursor on every exit path after
opening, but never closes the connection. -/
theorem c4_session_release (env : Env) (s : Session) (uri name : String) (args : ToolArgs) :
    ((read_resource env s uri).opened = true →
      (read_resource env s uri).cursorClosed = true ∧
      (read_resource env s uri).connClosed = true) ∧
    ((call_tool env s name args).opened = true →
      (call_tool env s name args).cursorClosed = true ∧
      (call_tool env s name args).connClosed = true) ∧
    ((list_resources env s).opened = true → (list_resources env s).cursorClosed = true) ∧
    (list_resources env s).connClosed = false := by
  refine ⟨fun h => ?_, fun h => ?_, fun h => ?_, (list_resources_release env s).1⟩
  · rcases read_resource_release env s uri with h0 | h0
    · rw [h] at h0; exact absurd h0 (by simp)
    · exact h0
  · rcases call_tool_release env s name args with h0 | h0
    · rw [h] at h0; exact absurd h0 (by simp)
    · exact h0
  · rcases (list_resources_release env s).2 with h0 | h0
    · rw [h] at h0; exact absurd h0 (by simp)
    · exact h0

/-- C4 witness: on a concrete successful run, `read_resource` and `call_tool`
have closed the connection, and `list_resources` has closed the cursor. -/
theorem c4_session_release_witness :
    (read_resource envOk sOk "mysql://t/data").connClosed = true ∧
    (call_tool envOk sOk "execute_sql" { query := some "SELECT * FROM t" }).connClosed = true ∧
    (list_resources envOk sOk).cursorClosed = true :=
  ⟨((c4_session_release envOk sOk "mysql://t/data" "execute_sql"
      { query := some "SELECT * FROM t" }).1 rfl).2,
   ((c4_session_release envOk sOk "mysql://t/data" "execute_sql"
      { query := some "SELECT * FROM t" }).2.1 rfl).2,
   (c4_session_release envOk sOk "mysql://t/data" "execute_sql"
      { query := some "SELECT * FROM t" }).2.2.1 rfl⟩

/-- C5: when a `mysql.connector.Error` is raised anywhere inside the `try`
body of `list_resources`, the error is not propagated: the operation returns
the empty resource list. -/
theorem c5_list_resources_fail_soft (env : Env) (s : Session) (cfg : DBConfig) (m : String)
    (hc : get_db_config env = .ok cfg) (he : listRaises s = some (.dbError m)) :
    (list_resources env s).result = .ok [] := by
  unfold list_resources
  rw [hc]
  unfold listRaises at he
  cases hr : s.rawConnection with
  | error e =>
      rw [hr] at he
      simp only [Option.some.injEq] at he
      subst he
      simp [isDbError]
  | ok u =>
      rw [hr] at he
      cases hx : s.execute "SHOW TABLES" with
      | error e =>
          rw [hx] at he
          simp only [Option.some.injEq] at he
          subst he
          simp [isDbError]
      | ok v =>
          rw [hx] at he
          cases hf : s.fetchall "SHOW TABLES" with
          | error e =>
              rw [hf] at he
              simp only [Option.some.injEq] at he
              subst he
              simp [isDbError]
          | ok tables =>
              rw [hf] at he
              cases ht : tableResources tables with
              | error e =>
                  simp only [ht, Option.some.injEq] at he
                  subst he
                  simp [ht, isDbError]
              | ok rs =>
                  simp [ht] at he

/-- C5 witness: a session whose `execute` raises a driver error makes
`list_resources` return the empty list. -/
theorem c5_list_resources_fail_soft_witness :
    (list_resources envOk sExecFail).result = .ok [] :=
  c5_list_resources_fail_soft envOk sExecFail cfgOk "Table does not exist" rfl rfl

/-- C6: with a resolvable configuration, a URI not starting with `mysql://`
makes `read_resource` fail with the invalid-scheme `ValueError` and no
session is ever opened (the outcome does not depend on the driver at all);
with the correct scheme, any exception inside the `try` is wrapped and
propagated as `RuntimeError("Database error: ...")` — not swallowed and not
converted into a success payload. -/
theorem c6_read_resource_scheme_then_db (env : Env) (s : Session) (uri : String)
    (cfg : DBConfig) (hc : get_db_config env = .ok cfg) :
    (pyStartsWith uri "mysql://" = false →
      read_resource env s uri =
        { result := .error (.valueError ("Invalid URI scheme: " ++ uri)), opened := false,
          cursorClosed := false, connClosed := false }) ∧
    (pyStartsWith uri "mysql://" = true → ∀ e, readRaises s (readQuery uri) = some e →
      (read_resource env s uri).result =
        .error (.runtimeError ("Database error: " ++ e.msg))) := by
  constructor
  · intro hbad
    unfold read_resource
    rw [hc]
    simp [hbad]
  · intro huri e he
    unfold read_resource
    rw [hc]
    simp only [huri, Bool.not_true, Bool.false_eq_true, if_false]
    unfold readRaises at he
    cases hr : s.rawConnection with
    | error e0 =>
        rw [hr] at he
        simp only [Option.some.injEq] at he
        subst he
        simp
    | ok u =>
        rw [hr] at he
        cases hx : s.execute (readQuery uri) with
        | error e0 =>
            rw [hx] at he
            simp only [Option.some.injEq] at he
            subst he
            simp
        | ok v =>
            rw [hx] at he
            cases hf : s.fetchall (readQuery uri) with
            | error e0 =>
                rw [hf] at he
                simp only [Option.some.injEq] at he
                subst he
                simp
            | ok rows =>
                rw [hf] at he
                simp at he

/-- C6 witness: a concrete bad-scheme URI fails with `InvalidArgument`
without a database call, and a concrete good-scheme URI with a failing
`execute` fails with the wrapped `DatabaseError`. -/
theorem c6_read_resource_scheme_then_db_witness :
    read_resource envOk sOk "http://t/data" =
      { result := .error (.valueError ("Invalid URI scheme: " ++ "http://t/data")),
        opened := false, cursorClosed := false, connClosed := false } ∧
    (read_resource envOk sExecFail "mysql://t/data").result =
      .error (.runtimeError ("Database error: " ++ "Table does not exist")) :=
  ⟨(c6_read_resource_scheme_then_db envOk sOk "http://t/data" cfgOk rfl).1 rfl,
   (c6_read_resource_scheme_then_db envOk sExecFail "mysql://t/data" cfgOk rfl).2 rfl
     (.dbError "Table does not exist") rfl⟩

/-- C1: with a resolvable configuration, the tool name `execute_sql` and a
non-empty query, any exception raised inside the `try` body of `call_tool`
(session opening, query execution, result fetching, or formatting) does not
propagate as a protocol-level failure: the operation returns a successful
single-item text content whose body is `Error executing query: ` followed by
the exception's message. -/
theorem c1_execute_errors_as_text (env : Env) (s : Session) (args : ToolArgs)
    (q : String) (cfg : DBConfig) (e : PyExc)
    (hc : get_db_config env = .ok cfg) (hq : args.query = some q)
    (hne : q.isEmpty = false) (he : callRaises s q = some e) :
    (call_tool env s "execute_sql" args).result =
      .ok [mkText ("Error executing query: " ++ e.msg)] := by
  unfold call_tool
  rw [hc]
  dsimp only
  rw [if_neg (fun h => h rfl)]
  rw [hq]
  dsimp only
  simp only [hne, Bool.false_eq_true, if_false]
  unfold callRaises at he
  cases hr : s.rawConnection with
  | error e0 =>
      rw [hr] at he
      simp only [Option.some.injEq] at he
      subst he
      simp [errText]
  | ok u =>
      rw [hr] at he
      dsimp only
      cases hx : s.execute q with
      | error e0 =>
          rw [hx] at he
          simp only [Option.some.injEq] at he
          subst he
          simp [errText]
      | ok v =>
          rw [hx] at he
          dsimp only
          by_cases hs : isShowTables q
          · simp only [hs, if_true] at he ⊢
            cases hf : s.fetchall q with
            | error e0 =>
                rw [hf] at he
                simp only [Option.some.injEq] at he
                subst he
                simp [errText]
            | ok tables =>
                rw [hf] at he
                dsimp only
                cases ht : showTableNames tables with
                | error e0 =>
                    simp only [ht, Option.some.injEq] at he
                    subst he
                    simp [ht, errText]
                | ok names =>
                    simp [ht] at he
          · by_cases hsel : isSelect q
            · simp only [hs, Bool.false_eq_true, if_false, hsel, if_true] at he ⊢
              cases hf : s.fetchall q with
              | error e0 =>
                  rw [hf] at he
                  simp only [Option.some.injEq] at he
                  subst he
                  simp [errText]
              | ok rows =>
                  simp [hf] at he
            · simp [hs, hsel] at he

/-- C1 witness: a concrete failing `execute` makes `call_tool` return the
error-as-text payload. -/
theorem c1_execute_errors_as_text_witness :
    (call_tool envOk sExecFail "execute_sql"
        { query := some "SELECT * FROM nosuchtable" }).result =
      .ok [mkText ("Error executing query: " ++ "Table does not exist")] :=
  c1_execute_errors_as_text envOk sExecFail { query := some "SELECT * FROM nosuchtable" }
    "SELECT * FROM nosuchtable" cfgOk (.dbError "Table does not exist") rfl rfl rfl rfl

/-- C2: with a resolvable configuration and a successfully executed non-empty
query, the result shape is chosen by the trimmed upper-cased prefix of the
query text: a `SHOW TABLES` prefix yields the `Tables_in_{database}` header
followed by one table name per line; a `SELECT` prefix yields the comma-joined
column header followed by one comma-joined row per line; every other prefix
commits the transaction and yields exactly
`Query executed successfully. Rows affected: {n}` with `n` the driver-reported
affected-row count. -/
theorem c2_result_shape_classification (env : Env) (s : Session) (args : ToolArgs)
    (q : String) (cfg : DBConfig)
    (hc : get_db_config env = .ok cfg) (hq : args.query = some q)
    (hne : q.isEmpty = false) (hconn : s.rawConnection = .ok ())
    (hexec : s.execute q = .ok ()) :
    (isShowTables q = true → ∀ tables names, s.fetchall q = .ok tables →
      showTableNames tables = .ok names →
      call_tool env s "execute_sql" args =
        { result := .ok [mkText (String.intercalate "\n"
            (("Tables_in_" ++ cfg.database) :: names))],
          committed := false, opened := true, cursorClosed := true, connClosed := true }) ∧
    (isShowTables q = false → isSelect q = true → ∀ rows, s.fetchall q = .ok rows →
      call_tool env s "execute_sql" args =
        { result := .ok [mkText (serializeRowsTool (s.description q) rows)],
          committed := false, opened := true, cursorClosed := true, connClosed := true }) ∧
    (isShowTables q = false → isSelect q = false →
      call_tool env s "execute_sql" args =
        { result := .ok [mkText ("Query executed successfully. Rows affected: " ++
            toString (s.rowcount q))],
          committed := true, opened := true, cursorClosed := true, connClosed := true }) := by
  have hbody : call_tool env s "execute_sql" args =
      (if isShowTables q then
        match s.fetchall q with
        | .error e =>
            { result := .ok [errText e], committed := false, opened := true,
              cursorClosed := true, connClosed := true }
        | .ok tables =>
            match showTableNames tables with
            | .error e =>
                { result := .ok [errText e], committed := false, opened := true,
                  cursorClosed := true, connClosed := true }
            | .ok names =>
                { result := .ok [mkText (String.intercalate "\n"
                    (("Tables_in_" ++ cfg.database) :: names))],
                  committed := false, opened := true, cursorClosed := true, connClosed := true }
      else if isSelect q then
        match s.fetchall q with
        | .error e =>
            { result := .ok [errText e], committed := false, opened := true,
              cursorClosed := true, connClosed := true }
        | .ok rows =>
            { result := .ok [mkText (serializeRowsTool (s.description q) rows)],
              committed := false, opened := true, cursorClosed := true, connClosed := true }
      else
        { result := .ok [mkText ("Query executed successfully. Rows affected: " ++
            toString (s.rowcount q))],
          committed := true, opened := true, cursorClosed := true, connClosed := true }) := by
    unfold call_tool
    rw [hc]
    dsimp only
    rw [if_neg (fun h => h rfl)]
    rw [hq]
    dsimp only
    simp only [hne, Bool.false_eq_true, if_false]
    rw [hconn]
    dsimp only
    rw [hexec]
  refine ⟨fun hs tables names hf ht => ?_, fun hs hsel rows hf => ?_, fun hs hsel => ?_⟩
  · rw [hbody]
    simp only [hs, if_true]
    rw [hf]
    dsimp only
    rw [ht]
  · rw [hbody]
    simp only [hs, Bool.false_eq_true, if_false, hsel, if_true]
    rw [hf]
  · rw [hbody]
    simp only [hs, hsel, Bool.false_eq_true, if_false]

/-- C2 witness: a concrete mutation query yields the commit and the
rows-affected message. -/
theorem c2_result_shape_classification_witness :
    call_tool envOk sOk "execute_sql" { query := some "DELETE FROM t" } =
      { result := .ok [mkText ("Query executed successfully. Rows affected: " ++
          toString (1 : Int))],
        committed := true, opened := true, cursorClosed := true, connClosed := true } :=
  (c2_result_shape_classification envOk sOk { query := some "DELETE FROM t" }
    "DELETE FROM t" cfgOk rfl rfl rfl rfl rfl).2.2 rfl rfl

/-- C10: with a resolvable configuration, the tool name `execute_sql` and a
non-empty query, `call_tool` commits the transaction exactly when the session
opened, the query executed without raising, and the trimmed upper-cased query
prefix is neither `SHOW TABLES` nor `SELECT`. -/
theorem c10_commit_only_on_mutation (env : Env) (s : Session) (args : ToolArgs)
    (q : String) (cfg : DBConfig)
    (hc : get_db_config env = .ok cfg) (hq : args.query = some q)
    (hne : q.isEmpty = false) :
    (call_tool env s "execute_sql" args).committed = true ↔
      (s.rawConnection = .ok () ∧ s.execute q = .ok () ∧
       isShowTables q = false ∧ isSelect q = false) := by
  unfold call_tool
  rw [hc]
  dsimp only
  rw [if_neg (fun h => h rfl)]
  rw [hq]
  dsimp only
  simp only [hne, Bool.false_eq_true, if_false]
  cases hr : s.rawConnection with
  | error e => simp [hr]
  | ok u =>
      dsimp only
      cases hx : s.execute q with
      | error e => simp [hr, hx]
      | ok v =>
          dsimp only
          by_cases hs : isShowTables q
          · simp only [hs, if_true]
            cases s.fetchall q with
            | error e => simp [hr, hx, hs]
            | ok tables =>
                dsimp only
                cases showTableNames tables with
                | error e => simp [hr, hx, hs]
                | ok names => simp [hr, hx, hs]
          · by_cases hsel : isSelect q
            · simp only [hs, Bool.false_eq_true, if_false, hsel, if_true]
              cases s.fetchall q with
              | error e => simp [hr, hx, hs, hsel]
              | ok rows => simp [hr, hx, hs, hsel]
            · simp only [hs, hsel, Bool.false_eq_true, if_false]
              simp [hr, hx, hs, hsel]

/-- C10 witness: a concrete mutation query on a successful session commits. -/
theorem c10_commit_only_on_mutation_witness :
    (call_tool envOk sOk "execute_sql" { query := some "DELETE FROM t" }).committed = true :=
  (c10_commit_only_on_mutation envOk sOk { query := some "DELETE FROM t" }
    "DELETE FROM t" cfgOk rfl rfl rfl).mpr ⟨rfl, rfl, rfl, rfl⟩

end MysqlMcp
